import Mathlib

/-!
# Verification of the base64img-web image normalization pipeline

A shallow embedding of `src/App.tsx` (`processImage` and its helpers).
Browser facilities (FileReader, Image loading/decoding, the 2D canvas
context, `canvas.toDataURL`) are modelled as oracle functions packaged in
an `Env`; the pipeline itself is the deterministic function `processImage`
translated statement-by-statement from the source.  JS `number` arithmetic
on geometry and size accounting is modelled over `ℚ` (the computations the
claims are about are exact in `ℚ`); `Math.round` is `⌊x + 1/2⌋`, its JS
semantics.
-/

namespace Base64Img

/-- `interface ImageMetadata` of App.tsx. -/
structure ImageMetadata where
  filename : String
  type : String
  size : ℕ
  width : ℕ
  height : ℕ
  deriving Repr, DecidableEq

/-- `interface OutputData` of App.tsx (`outputSizeKB` is a JS number,
modelled as `ℚ`). -/
structure OutputData where
  dataUri : String
  outputSizeKB : ℚ
  outputWidth : ℕ
  outputHeight : ℕ
  deriving Repr, DecidableEq

/-- `const ALLOWED_TYPES = ['image/png', 'image/jpeg', 'image/webp',
'image/svg+xml']`. -/
def ALLOWED_TYPES : List String :=
  ["image/png", "image/jpeg", "image/webp", "image/svg+xml"]

/-- `isValidImageType`: `ALLOWED_TYPES.includes(type)`. -/
def isValidImageType (type : String) : Bool :=
  ALLOWED_TYPES.contains type

/-- A `File` as handed to `processImage`: name, declared MIME type,
byte size and raw content. -/
structure JsFile where
  name : String
  type : String
  size : ℕ
  bytes : List ℕ
  deriving Repr, DecidableEq

/-- The configuration read at lines 98-99 of App.tsx
(`currentCanvasSize`, `currentFitToSquare`). -/
structure Config where
  canvasSize : ℕ
  fitToSquare : Bool
  deriving Repr, DecidableEq

/-- The component state that `processImage` reads and writes. -/
structure AppState where
  imageMetadata : Option ImageMetadata
  outputData : Option OutputData
  error : Option String
  success : Option String
  deriving Repr, DecidableEq

/-- JS `Math.round x = ⌊x + 0.5⌋` (rounds half toward +∞), written with
the executable `Rat.floor` (equal to `Int.floor` on `ℚ`). -/
def jsRound (q : ℚ) : ℤ := Rat.floor (q + 1/2)

/-- The draw rectangle computed inside the `fitToSquare` branch
(lines 107-113 of App.tsx). -/
structure DrawRect where
  x : ℚ
  y : ℚ
  width : ℚ
  height : ℚ
  deriving Repr, DecidableEq

/-- Line 107: `const scale = Math.min(currentCanvasSize / img.naturalWidth,
currentCanvasSize / img.naturalHeight)`. -/
def scaleFor (currentCanvasSize naturalWidth naturalHeight : ℚ) : ℚ :=
  min (currentCanvasSize / naturalWidth) (currentCanvasSize / naturalHeight)

/-- Lines 107-113: scale, scaled dimensions, and the centering offsets
`x = (currentCanvasSize - scaledWidth) / 2`,
`y = (currentCanvasSize - scaledHeight) / 2`. -/
def drawRect (currentCanvasSize naturalWidth naturalHeight : ℚ) : DrawRect :=
  let scale := scaleFor currentCanvasSize naturalWidth naturalHeight
  let scaledWidth := naturalWidth * scale
  let scaledHeight := naturalHeight * scale
  { x := (currentCanvasSize - scaledWidth) / 2
    y := (currentCanvasSize - scaledHeight) / 2
    width := scaledWidth
    height := scaledHeight }

/-- Line 132: `const outputSizeBytes = Math.round((base64Data.length * 3) / 4)`. -/
def outputSizeBytes (base64Len : ℕ) : ℤ :=
  jsRound ((base64Len * 3 : ℚ) / 4)

/-- Line 133: `const outputSizeKB = Math.round(outputSizeBytes / 1024 * 10) / 10`. -/
def outputSizeKB (base64Len : ℕ) : ℚ :=
  (jsRound ((outputSizeBytes base64Len : ℚ) / 1024 * 10) : ℚ) / 10

/-- The content of the output canvas just before `toDataURL` is called:
its pixel dimensions, the decoded source it draws (data URL plus natural
dimensions), and the draw placement — `some rect` for the `fitToSquare`
branch (after `clearRect`), `none` for the native-dimensions branch
(`drawImage(img, 0, 0)`). -/
structure CanvasContent where
  width : ℕ
  height : ℕ
  srcDataUrl : String
  srcWidth : ℕ
  srcHeight : ℕ
  fitRect : Option DrawRect
  deriving Repr, DecidableEq

/-- The browser facilities `processImage` calls out to, as deterministic
oracle functions:
* `readFile` — the `FileReader.readAsDataURL` step (lines 62-67);
  `none` models `reader.onerror` ("Failed to read file").
* `loadDecode` — `new Image()` loading plus `img.decode()` (lines 70-78);
  `.ok (w, h)` yields `naturalWidth`/`naturalHeight`, `.error msg` models
  `onerror`/`decode` rejection with the thrown message.
* `ctxAvailable` — whether `canvas.getContext('2d')` returns a context
  (lines 91-95).
* `toDataURL` — `canvas.toDataURL('image/png')` (line 128) as a function
  of the canvas content. -/
structure Env where
  readFile : List ℕ → Option String
  loadDecode : String → Except String (ℕ × ℕ)
  ctxAvailable : Bool
  toDataURL : CanvasContent → String

/-- `showError` (lines 38-41): set `error`, clear `success`. -/
def showError (message : String) (s : AppState) : AppState :=
  { s with error := some message, success := none }

/-- `clearMessages` (lines 33-36). -/
def clearMessages (s : AppState) : AppState :=
  { s with error := none, success := none }

/-- Lines 101-125 of App.tsx: the canvas set-up.  With `fitToSquare` the
canvas is `canvasSize × canvasSize` and the source is drawn at
`drawRect` after `clearRect`; otherwise the canvas takes the source's
native dimensions and the source is drawn at the origin unscaled. -/
def mkCanvas (cfg : Config) (dataUrl : String)
    (naturalWidth naturalHeight : ℕ) : CanvasContent :=
  if cfg.fitToSquare then
    { width := cfg.canvasSize, height := cfg.canvasSize
      srcDataUrl := dataUrl
      srcWidth := naturalWidth, srcHeight := naturalHeight
      fitRect := some (drawRect cfg.canvasSize naturalWidth naturalHeight) }
  else
    { width := naturalWidth, height := naturalHeight
      srcDataUrl := dataUrl
      srcWidth := naturalWidth, srcHeight := naturalHeight
      fitRect := none }

/-- JS `String.prototype.split(',')` on the character list: splits at
every comma and keeps empty chunks. -/
def splitComma : List Char → List (List Char)
  | [] => [[]]
  | c :: cs =>
    match splitComma cs with
    | [] => [[]]
    | g :: gs => if c = ',' then [] :: g :: gs else (c :: g) :: gs

/-- JS `s.split(',')` as a list of strings. -/
def jsSplitComma (s : String) : List String :=
  (splitComma s.data).map fun l => ⟨l⟩

/-- Lines 128-140 of App.tsx: `toDataURL`, the size accounting, and
`setOutputData`.  The source takes `pngDataUri.split(',')[1]`; when the
string contains no comma that element is `undefined` and reading
`.length` on it throws a TypeError, landing in the same `catch` as every
other failure — that branch is kept faithful. -/
def encodeOutput (env : Env) (canvas : CanvasContent) (s : AppState) :
    AppState :=
  let pngDataUri := env.toDataURL canvas
  match (jsSplitComma pngDataUri)[1]? with
  | none =>
    showError "Cannot read properties of undefined (reading length)" s
  | some base64Data =>
    let od : OutputData :=
      ⟨pngDataUri, outputSizeKB base64Data.length,
        canvas.width, canvas.height⟩
    { s with outputData := some od }

/-- Lines 90-140 of App.tsx: create the canvas, check the 2D context,
draw and encode. -/
def rasterize (env : Env) (cfg : Config) (dataUrl : String)
    (naturalWidth naturalHeight : ℕ) (s : AppState) : AppState :=
  if !env.ctxAvailable then
    showError "Canvas context not available" s
  else
    encodeOutput env (mkCanvas cfg dataUrl naturalWidth naturalHeight) s

/-- `processImage` (lines 52-147 of App.tsx), translated step by step.
Each `throw` in the source becomes a jump to the `catch` handler, which is
`showError` with the thrown message (line 143).  `currentFitToSquare` and
`currentCanvasSize` are the `cfg` argument. -/
def processImage (env : Env) (cfg : Config) (file : JsFile) (s : AppState) :
    AppState :=
  let s := clearMessages s
  if !isValidImageType file.type then
    showError ("Unsupported file type: " ++ file.type ++
      ". Please use PNG, JPEG, WEBP, or SVG.") s
  else
    match env.readFile file.bytes with
    | none => showError "Failed to read file" s
    | some dataUrl =>
      match env.loadDecode dataUrl with
      | .error msg => showError msg s
      | .ok (naturalWidth, naturalHeight) =>
        let meta : ImageMetadata :=
          ⟨file.name, file.type, file.size, naturalWidth, naturalHeight⟩
        let s := { s with imageMetadata := some meta }
        rasterize env cfg dataUrl naturalWidth naturalHeight s

/-- Geometry as section 4.2 of the spec words it, for the refinement
check of the fit-to-square branch: `scale = min(targetEdge / nativeWidth,
targetEdge / nativeHeight)`, `scaledWidth = nativeWidth * scale`,
`scaledHeight = nativeHeight * scale`, `DrawRect.x = (targetEdge -
scaledWidth) / 2`, `DrawRect.y = (targetEdge - scaledHeight) / 2`. -/
def specGeometry (targetEdge nativeWidth nativeHeight : ℚ) : DrawRect :=
  let scale := min (targetEdge / nativeWidth) (targetEdge / nativeHeight)
  { x := (targetEdge - nativeWidth * scale) / 2
    y := (targetEdge - nativeHeight * scale) / 2
    width := nativeWidth * scale
    height := nativeHeight * scale }

/-! Concrete fixtures used to exercise the pipeline on closed inputs. -/

/-- The component's initial state: no metadata, no output, no messages. -/
def initState : AppState := ⟨none, none, none, none⟩

/-- The default configuration: `canvasSize = 256`, `fitToSquare = true`. -/
def cfgSquare : Config := ⟨256, true⟩

/-- Eight bytes of PNG magic, standing in for raw file content. -/
def pngBytes : List ℕ := [137, 80, 78, 71, 13, 10, 26, 10]

/-- A sample accepted file. -/
def pngFile : JsFile := ⟨"icon.png", "image/png", 8, pngBytes⟩

/-- A sample rejected file (GIF is not whitelisted). -/
def gifFile : JsFile := ⟨"anim.gif", "image/gif", 8, pngBytes⟩

/-- Same type and bytes as `pngFile`, different name. -/
def pngFileCopy : JsFile := ⟨"copy.png", "image/png", 8, pngBytes⟩

/-- A well-behaved browser environment: reading and decoding succeed with
a 100×50 source, the 2D context exists, and `toDataURL` yields a data URI
with a 4-character base64 payload. -/
def envOk : Env :=
  { readFile := fun _ => some "data:image/png;base64,iVBORw0KGgo="
    loadDecode := fun _ => .ok (100, 50)
    ctxAvailable := true
    toDataURL := fun _ => "data:image/png;base64,AAAA" }

/-- Like `envOk` but `canvas.getContext('2d')` returns null. -/
def envNoCtx : Env := { envOk with ctxAvailable := false }

/-- Like `envOk` but the decoded source reports `naturalWidth = 0`. -/
def envZeroDim : Env := { envOk with loadDecode := fun _ => .ok (0, 50) }

end Base64Img

namespace Base64Img

/-- C1: for positive dimensions and `fitToSquare`, the geometry matches
the spec's formulas (`scale = min(targetEdge/nativeWidth,
targetEdge/nativeHeight)`, scaled dimensions multiply by that scale, the
rectangle is centered on both axes); at `nativeWidth = 100`,
`nativeHeight = 50`, `targetEdge = 256` this gives `scale = 2.56` and
`DrawRect = {x := 0, y := 64, width := 256, height := 128}`. -/
theorem geometry_matches_spec (e w h : ℚ) (_hw : 0 < w) (_hh : 0 < h) :
    (scaleFor e w h = min (e / w) (e / h) ∧
      drawRect e w h = specGeometry e w h) ∧
    (scaleFor 256 100 50 = 2.56 ∧
      drawRect 256 100 50 = ⟨0, 64, 256, 128⟩) := by
  refine ⟨⟨rfl, rfl⟩, ?_, ?_⟩
  · show min ((256 : ℚ) / 100) (256 / 50) = 2.56
    norm_num
  · show DrawRect.mk ((256 - 100 * min ((256:ℚ)/100) (256/50)) / 2)
      ((256 - 50 * min ((256:ℚ)/100) (256/50)) / 2)
      (100 * min ((256:ℚ)/100) (256/50))
      (50 * min ((256:ℚ)/100) (256/50)) = ⟨0, 64, 256, 128⟩
    norm_num

/-- C6: for positive dimensions and a positive target edge, the draw
rectangle of the `fitToSquare` branch preserves the source aspect ratio
(`width / height = nativeWidth / nativeHeight`) and lies inside the
square output canvas (`0 ≤ x`, `0 ≤ y`, `x + width ≤ targetEdge`,
`y + height ≤ targetEdge`). -/
theorem drawRect_aspect_and_contained (e w h : ℚ)
    (he : 0 < e) (hw : 0 < w) (hh : 0 < h) :
    (drawRect e w h).width / (drawRect e w h).height = w / h ∧
    0 ≤ (drawRect e w h).x ∧ 0 ≤ (drawRect e w h).y ∧
    (drawRect e w h).x + (drawRect e w h).width ≤ e ∧
    (drawRect e w h).y + (drawRect e w h).height ≤ e := by
  have hs : 0 < scaleFor e w h := lt_min (div_pos he hw) (div_pos he hh)
  have hwe : w * (e / w) = e := by field_simp
  have hhe : h * (e / h) = e := by field_simp
  have hws : w * scaleFor e w h ≤ e := by
    have h1 : w * scaleFor e w h ≤ w * (e / w) :=
      mul_le_mul_of_nonneg_left (min_le_left _ _) (le_of_lt hw)
    linarith
  have hhs : h * scaleFor e w h ≤ e := by
    have h1 : h * scaleFor e w h ≤ h * (e / h) :=
      mul_le_mul_of_nonneg_left (min_le_right _ _) (le_of_lt hh)
    linarith
  simp only [drawRect]
  refine ⟨?_, by linarith, by linarith, by linarith, by linarith⟩
  rw [mul_comm w _, mul_comm h _, mul_div_mul_left _ _ (ne_of_gt hs)]

/-- Witness for C6 at `e = 256`, `w = 100`, `h = 50`. -/
theorem drawRect_aspect_and_contained_witness :
    ((0 : ℚ) < 256 ∧ (0 : ℚ) < 100 ∧ (0 : ℚ) < 50) ∧
    ((drawRect 256 100 50).width / (drawRect 256 100 50).height
        = 100 / 50 ∧
      0 ≤ (drawRect 256 100 50).x ∧ 0 ≤ (drawRect 256 100 50).y ∧
      (drawRect 256 100 50).x + (drawRect 256 100 50).width ≤ 256 ∧
      (drawRect 256 100 50).y + (drawRect 256 100 50).height ≤ 256) :=
  ⟨⟨by norm_num, by norm_num, by norm_num⟩,
    drawRect_aspect_and_contained 256 100 50
      (by norm_num) (by norm_num) (by norm_num)⟩

/-- C9: when both native dimensions are positive and strictly below the
target edge, the computed scale exceeds 1 — the source is upscaled, with
no clamp at 1 anywhere in the computation. -/
theorem scale_upscales_small_sources (e w h : ℚ)
    (hw : 0 < w) (hh : 0 < h) (hwe : w < e) (hhe : h < e) :
    1 < scaleFor e w h :=
  lt_min ((one_lt_div hw).mpr hwe) ((one_lt_div hh).mpr hhe)

/-- Witness for C9 at `e = 256`, `w = 100`, `h = 50`. -/
theorem scale_upscales_small_sources_witness :
    ((0 : ℚ) < 100 ∧ (0 : ℚ) < 50 ∧
      (100 : ℚ) < 256 ∧ (50 : ℚ) < 256) ∧
    1 < scaleFor 256 100 50 :=
  ⟨⟨by norm_num, by norm_num, by norm_num, by norm_num⟩,
    scale_upscales_small_sources 256 100 50
      (by norm_num) (by norm_num) (by norm_num) (by norm_num)⟩

/-- Concrete witness for C1 at `e = 256`, `w = 100`, `h = 50`. -/
theorem geometry_matches_spec_witness :
    (0 : ℚ) < 100 ∧ (0 : ℚ) < 50 ∧
    (scaleFor 256 100 50 = min ((256 : ℚ) / 100) (256 / 50) ∧
      drawRect 256 100 50 = specGeometry 256 100 50) ∧
    (scaleFor 256 100 50 = 2.56 ∧
      drawRect 256 100 50 = ⟨0, 64, 256, 128⟩) := by
  refine ⟨by norm_num, by norm_num, ?_⟩
  exact geometry_matches_spec 256 100 50 (by norm_num) (by norm_num)

/-- Helper: full case analysis of a `processImage` run — either some stage
threw, `error` is set and `outputData` (and `imageMetadata` in the early
stages) is whatever it was before, or every stage succeeded and the final
state carries fresh metadata and a fresh output descriptor. -/
theorem processImage_cases (env : Env) (cfg : Config) (file : JsFile)
    (s : AppState) :
    (∃ msg, (processImage env cfg file s).error = some msg ∧
      (processImage env cfg file s).outputData = s.outputData ∧
      (processImage env cfg file s).success = none) ∨
    ((processImage env cfg file s).error = none ∧
      (processImage env cfg file s).success = none ∧
      ∃ url w h payload,
        env.readFile file.bytes = some url ∧
        env.loadDecode url = Except.ok (w, h) ∧
        env.ctxAvailable = true ∧
        isValidImageType file.type = true ∧
        (jsSplitComma (env.toDataURL (mkCanvas cfg url w h)))[1]?
          = some payload ∧
        (processImage env cfg file s).imageMetadata =
          some ⟨file.name, file.type, file.size, w, h⟩ ∧
        (processImage env cfg file s).outputData =
          some ⟨env.toDataURL (mkCanvas cfg url w h),
            outputSizeKB payload.length,
            (mkCanvas cfg url w h).width, (mkCanvas cfg url w h).height⟩) := by
  unfold processImage
  by_cases hty : isValidImageType file.type
  case neg =>
    left
    simp [hty, showError, clearMessages]
  case pos =>
    cases hrf : env.readFile file.bytes with
    | none =>
      left
      simp [hty, hrf, showError, clearMessages]
    | some url =>
      cases hld : env.loadDecode url with
      | error m =>
        left
        simp [hty, hrf, hld, showError, clearMessages]
      | ok p =>
        obtain ⟨w, h⟩ := p
        unfold rasterize
        by_cases hctx : env.ctxAvailable
        case neg =>
          left
          simp [hty, hrf, hld, hctx, showError, clearMessages]
        case pos =>
          unfold encodeOutput
          cases hsp :
              (jsSplitComma (env.toDataURL (mkCanvas cfg url w h)))[1]? with
          | none =>
            left
            simp [hty, hrf, hld, hctx, hsp, showError, clearMessages]
          | some payload =>
            right
            refine ⟨?_, ?_, url, w, h, payload, rfl, hld, hctx, hty, hsp,
              ?_, ?_⟩ <;>
              simp [hld, hsp, hty, hctx, showError, clearMessages]

/-- C2: on every successful conversion the output dimensions are the
target edge on both axes when `fitToSquare` is set, and the source's
natural dimensions (the ones recorded in the metadata) otherwise. -/
theorem output_dimensions_on_success (env : Env) (cfg : Config)
    (file : JsFile) (s : AppState)
    (hok : (processImage env cfg file s).error = none) :
    ∃ m od, (processImage env cfg file s).imageMetadata = some m ∧
      (processImage env cfg file s).outputData = some od ∧
      (cfg.fitToSquare = true →
        od.outputWidth = cfg.canvasSize ∧
        od.outputHeight = cfg.canvasSize) ∧
      (cfg.fitToSquare = false →
        od.outputWidth = m.width ∧ od.outputHeight = m.height) := by
  rcases processImage_cases env cfg file s with
    ⟨msg, hmsg, -, -⟩ | ⟨-, -, url, w, h, payload, -, -, -, -, -, hm, ho⟩
  · rw [hmsg] at hok; cases hok
  · refine ⟨_, _, hm, ho, ?_, ?_⟩ <;> intro hf <;> simp [mkCanvas, hf]

/-- Witness for C2: a concrete successful run with the default
square configuration. -/
theorem output_dimensions_on_success_witness :
    (processImage envOk cfgSquare pngFile initState).error = none ∧
    ∃ m od,
      (processImage envOk cfgSquare pngFile initState).imageMetadata
        = some m ∧
      (processImage envOk cfgSquare pngFile initState).outputData
        = some od ∧
      (cfgSquare.fitToSquare = true →
        od.outputWidth = cfgSquare.canvasSize ∧
        od.outputHeight = cfgSquare.canvasSize) ∧
      (cfgSquare.fitToSquare = false →
        od.outputWidth = m.width ∧ od.outputHeight = m.height) :=
  ⟨by decide,
    output_dimensions_on_success envOk cfgSquare pngFile initState
      (by decide)⟩

/-- C5: a file whose declared MIME type is outside the whitelist is
rejected with the unsupported-type error, and the result is
`showError msg (clearMessages s)` — an expression in which no browser
facility (`readFile`, `loadDecode`, context, `toDataURL`) occurs, so no
decode work is performed. -/
theorem unsupported_type_rejected (env : Env) (cfg : Config)
    (file : JsFile) (s : AppState)
    (hty : isValidImageType file.type = false) :
    processImage env cfg file s =
      showError ("Unsupported file type: " ++ file.type ++
        ". Please use PNG, JPEG, WEBP, or SVG.") (clearMessages s) := by
  simp [processImage, hty]

/-- Witness for C5: `image/gif` is rejected. -/
theorem unsupported_type_rejected_witness :
    isValidImageType gifFile.type = false ∧
    processImage envOk cfgSquare gifFile initState =
      showError ("Unsupported file type: " ++ gifFile.type ++
        ". Please use PNG, JPEG, WEBP, or SVG.") (clearMessages initState) :=
  ⟨by decide,
    unsupported_type_rejected envOk cfgSquare gifFile initState (by decide)⟩

/-- C7: whenever a conversion attempt fails (its resulting `error` is
set), the `outputData` slot is exactly what it was before the attempt —
no partial output descriptor is ever surfaced. -/
theorem failure_leaves_outputData_unchanged (env : Env) (cfg : Config)
    (file : JsFile) (s : AppState)
    (hfail : (processImage env cfg file s).error.isSome) :
    (processImage env cfg file s).outputData = s.outputData := by
  rcases processImage_cases env cfg file s with
    ⟨msg, -, hout, -⟩ | ⟨hok, -, -⟩
  · exact hout
  · rw [hok] at hfail; simp at hfail

/-- Witness for C7: a concrete failing run (rejected MIME type) leaves
`outputData` untouched. -/
theorem failure_leaves_outputData_unchanged_witness :
    (processImage envOk cfgSquare gifFile initState).error.isSome = true ∧
    (processImage envOk cfgSquare gifFile initState).outputData =
      initState.outputData :=
  ⟨by decide,
    failure_leaves_outputData_unchanged envOk cfgSquare gifFile initState
      (by decide)⟩

/-- C8: the pipeline is deterministic in the raw bytes, the declared MIME
type and the config: two runs on files equal in type and bytes (possibly
differing in name or reported size, and starting from different component
states) reach the same `error` outcome, and on success the same output
descriptor — in particular a byte-identical `dataUri`. -/
theorem run_deterministic (env : Env) (cfg : Config) (f1 f2 : JsFile)
    (s1 s2 : AppState) (hty : f1.type = f2.type)
    (hb : f1.bytes = f2.bytes) :
    (processImage env cfg f1 s1).error = (processImage env cfg f2 s2).error ∧
    ((processImage env cfg f1 s1).error = none →
      (processImage env cfg f1 s1).outputData =
        (processImage env cfg f2 s2).outputData) := by
  unfold processImage rasterize encodeOutput
  rw [hty, hb]
  by_cases hvt : isValidImageType f2.type
  case neg => simp [hvt, showError, clearMessages]
  case pos =>
    cases hrf : env.readFile f2.bytes with
    | none => simp [hvt, hrf, showError, clearMessages]
    | some url =>
      cases hld : env.loadDecode url with
      | error m => simp [hvt, hrf, hld, showError, clearMessages]
      | ok p =>
        obtain ⟨w, h⟩ := p
        by_cases hctx : env.ctxAvailable
        case neg => simp [hvt, hrf, hld, hctx, showError, clearMessages]
        case pos =>
          cases hsp :
              (jsSplitComma (env.toDataURL (mkCanvas cfg url w h)))[1]? with
          | none =>
            simp [hvt, hrf, hld, hctx, hsp, showError, clearMessages]
          | some payload =>
            simp [hvt, hrf, hld, hctx, hsp, showError, clearMessages]

/-- Witness for C8: two files with the same bytes and type but different
names yield the same outcome. -/
theorem run_deterministic_witness :
    pngFile.type = pngFileCopy.type ∧ pngFile.bytes = pngFileCopy.bytes ∧
    ((processImage envOk cfgSquare pngFile initState).error =
        (processImage envOk cfgSquare pngFileCopy initState).error ∧
      ((processImage envOk cfgSquare pngFile initState).error = none →
        (processImage envOk cfgSquare pngFile initState).outputData =
          (processImage envOk cfgSquare pngFileCopy initState).outputData)) :=
  ⟨rfl, rfl,
    run_deterministic envOk cfgSquare pngFile pngFileCopy initState
      initState rfl rfl⟩

/-- C10: when the file is accepted and decodes but the 2D context is
unavailable, the metadata has already been replaced with the new source's
values while `outputData` keeps its previous value and the canvas-stage
error is reported. -/
theorem metadata_updated_before_canvas_stage (env : Env) (cfg : Config)
    (file : JsFile) (s : AppState) (url : String) (w h : ℕ)
    (hty : isValidImageType file.type = true)
    (hrf : env.readFile file.bytes = some url)
    (hld : env.loadDecode url = Except.ok (w, h))
    (hctx : env.ctxAvailable = false) :
    (processImage env cfg file s).imageMetadata =
      some ⟨file.name, file.type, file.size, w, h⟩ ∧
    (processImage env cfg file s).outputData = s.outputData ∧
    (processImage env cfg file s).error =
      some "Canvas context not available" := by
  simp [processImage, rasterize, hty, hrf, hld, hctx, showError,
    clearMessages]

/-- Witness for C10: concrete run against a context-less environment. -/
theorem metadata_updated_before_canvas_stage_witness :
    (isValidImageType pngFile.type = true ∧
      envNoCtx.readFile pngFile.bytes =
        some "data:image/png;base64,iVBORw0KGgo=" ∧
      envNoCtx.loadDecode "data:image/png;base64,iVBORw0KGgo=" =
        Except.ok (100, 50) ∧
      envNoCtx.ctxAvailable = false) ∧
    ((processImage envNoCtx cfgSquare pngFile initState).imageMetadata =
        some ⟨pngFile.name, pngFile.type, pngFile.size, 100, 50⟩ ∧
      (processImage envNoCtx cfgSquare pngFile initState).outputData =
        initState.outputData ∧
      (processImage envNoCtx cfgSquare pngFile initState).error =
        some "Canvas context not available") :=
  ⟨⟨by decide, rfl, rfl, rfl⟩,
    metadata_updated_before_canvas_stage envNoCtx cfgSquare pngFile
      initState "data:image/png;base64,iVBORw0KGgo=" 100 50
      (by decide) rfl rfl rfl⟩

/-- Helper: `Rat.floor` computes `Int.floor`. -/
theorem ratFloor_eq_intFloor (q : ℚ) : q.floor = ⌊q⌋ := by
  rw [Rat.floor_def', Rat.floor_def]

/-- Helper: characterization of `jsRound` for evaluating it at concrete
rationals. -/
theorem jsRound_eq (q : ℚ) (z : ℤ) (h1 : (z : ℚ) ≤ q + 1/2)
    (h2 : q + 1/2 < z + 1) : jsRound q = z := by
  unfold jsRound
  rw [ratFloor_eq_intFloor]
  exact Int.floor_eq_iff.mpr ⟨h1, by exact_mod_cast h2⟩

/-- Helper: a 4-character base64 payload weighs 3 bytes, reported as
`0.0` KB. -/
theorem outputSizeKB_four : outputSizeKB 4 = 0 := by
  have hb : outputSizeBytes 4 = 3 := by
    unfold outputSizeBytes
    exact jsRound_eq _ _ (by norm_num) (by norm_num)
  unfold outputSizeKB
  rw [hb]
  have h2 : jsRound (((3 : ℤ) : ℚ) / 1024 * 10) = 0 :=
    jsRound_eq _ _ (by norm_num) (by norm_num)
  rw [h2]
  norm_num

/-- Helper: a 1368-character base64 payload weighs 1026 bytes, reported
as `1.0` KB. -/
theorem outputSizeKB_1368 : outputSizeKB 1368 = 1 := by
  have hb : outputSizeBytes 1368 = 1026 := by
    unfold outputSizeBytes
    exact jsRound_eq _ _ (by norm_num) (by norm_num)
  unfold outputSizeKB
  rw [hb]
  have h2 : jsRound (((1026 : ℤ) : ℚ) / 1024 * 10) = 10 :=
    jsRound_eq _ _ (by norm_num) (by norm_num)
  rw [h2]
  norm_num

/-- C3 fails on the code: `processImage` contains no dimension check at
all, so a decoded source reporting `naturalWidth = 0` is not rejected —
the run completes with no error and a fresh 256×256 output, instead of
failing with an `InvalidDimensions` error (line 107 of App.tsx evaluates
`currentCanvasSize / img.naturalWidth` with a zero denominator on the
way). -/
theorem zero_width_source_not_rejected :
    (processImage envZeroDim cfgSquare pngFile initState).error = none ∧
    (processImage envZeroDim cfgSquare pngFile initState).outputData =
      some ⟨"data:image/png;base64,AAAA", 0, 256, 256⟩ := by
  refine ⟨rfl, ?_⟩
  have h : (processImage envZeroDim cfgSquare pngFile initState).outputData =
      some ⟨"data:image/png;base64,AAAA", outputSizeKB 4, 256, 256⟩ := rfl
  rw [h, outputSizeKB_four]

/-- Helper: JS `Math.round` of a whole number is that number. -/
theorem jsRound_natCast (n : ℕ) : jsRound (n : ℚ) = n := by
  have h0 : ⌊(1 / 2 : ℚ)⌋ = 0 := by
    apply Int.floor_eq_zero_iff.mpr
    constructor <;> norm_num
  unfold jsRound
  rw [ratFloor_eq_intFloor, add_comm, Int.floor_add_nat, h0]
  simp

/-- C4: the reported `sizeKB` agrees with
`round(⌈base64Length * 3/4⌉ / 1024 * 10) / 10` for every base64 payload
length that is a multiple of 4 (every padded base64 text, in particular
everything `toDataURL` produces), and a 1368-character payload yields
exactly 1.0 KB. -/
theorem sizeKB_from_decoded_length (len : ℕ) (hlen : len % 4 = 0) :
    outputSizeKB len =
      (jsRound ((⌈((len : ℚ) * 3 / 4 : ℚ)⌉ : ℚ) / 1024 * 10) : ℚ) / 10 ∧
    outputSizeKB 1368 = 1 := by
  constructor
  · obtain ⟨k, rfl⟩ := Nat.dvd_of_mod_eq_zero hlen
    have h1 : ((4 * k : ℕ) : ℚ) * 3 / 4 = ((3 * k : ℕ) : ℚ) := by
      push_cast; ring
    unfold outputSizeKB outputSizeBytes
    rw [h1, Int.ceil_natCast, jsRound_natCast]
  · exact outputSizeKB_1368

/-- Witness for C4 at the spec's example length 1368. -/
theorem sizeKB_from_decoded_length_witness :
    (1368 : ℕ) % 4 = 0 ∧
    (outputSizeKB 1368 =
        (jsRound ((⌈(((1368 : ℕ) : ℚ) * 3 / 4 : ℚ)⌉ : ℚ) / 1024 * 10) : ℚ)
          / 10 ∧
      outputSizeKB 1368 = 1) :=
  ⟨by decide, sizeKB_from_decoded_length 1368 (by decide)⟩

end Base64Img
